import Mathlib

/-!
Verification of the SnapTrade credential-lifecycle and synchronization flow
of this repository (src/app/api/snaptrade/register/route.ts together with the
snaptrade utility module it embeds, and src/utils/snaptrade-sdk.ts).

The TypeScript functions are shallowly embedded as pure Lean functions.
External effects (the supabase broker_connections row, the remote SnapTrade
endpoints, the clock) are modelled by an explicit environment Env of scripted
responses and an explicit World state holding the stored row and call
counters.  Because the JS code persists database writes made before an
exception, every embedded function returns both an Except result and the
updated World, and callers always keep the updated World even on error.

Modelling decisions, each noted at its use site:
- timestamps are naturals (milliseconds since epoch); toISOString followed by
  new Date(s).getTime() round-trips, so the string form is elided;
- numeric strings parsed with parseFloat are modelled as Option Rat (absent
  or numeric); JS division, whose result can be Infinity or NaN, lands in the
  JsNum type;
- supabase writes are modelled as succeeding (the source never inspects
  write errors on the paths verified here);
- the recursion in createSnapTradeUserLink is embedded with an explicit
  fuel parameter; exhausting the fuel yields a distinguished error, so a
  statement that some fuel bound suffices is exactly a recursion-depth bound.
-/

/-! ## JS string and number semantics helpers -/

/-- JS a || b for an optional string: empty string and absent are falsy. -/
def jsOr (a : Option String) (b : String) : String :=
  match a with
  | some s => if s = "" then b else s
  | none => b

/-- JS a || b for two strings: empty string is falsy. -/
def jsOrS (a b : String) : String :=
  if a = "" then b else a

/-- Does the pattern occur as a contiguous run at the head of the list? -/
def startsWithSeq : List Char → List Char → Bool
  | _, [] => true
  | [], _ :: _ => false
  | a :: as, b :: bs => a = b && startsWithSeq as bs

/-- Does the pattern occur as a contiguous run anywhere in the list? -/
def containsSeq : List Char → List Char → Bool
  | [], needle => needle.isEmpty
  | c :: t, needle => startsWithSeq (c :: t) needle || containsSeq t needle

/-- JS String.prototype.includes. -/
def jsIncludes (s pat : String) : Bool :=
  containsSeq s.data pat.data

/-- ASCII whitespace recognised by the embedded trim. -/
def isWsChar (c : Char) : Bool :=
  c = ' ' || c = '\t' || c = '\n' || c = '\r'

/-- ASCII uppercase of one character (explicit table), as
String.prototype.toUpperCase acts on the broker identifiers appearing in
this code base. -/
def upChar (c : Char) : Char :=
  match c with
  | 'a' => 'A' | 'b' => 'B' | 'c' => 'C' | 'd' => 'D' | 'e' => 'E' | 'f' => 'F'
  | 'g' => 'G' | 'h' => 'H' | 'i' => 'I' | 'j' => 'J' | 'k' => 'K' | 'l' => 'L'
  | 'm' => 'M' | 'n' => 'N' | 'o' => 'O' | 'p' => 'P' | 'q' => 'Q' | 'r' => 'R'
  | 's' => 'S' | 't' => 'T' | 'u' => 'U' | 'v' => 'V' | 'w' => 'W' | 'x' => 'X'
  | 'y' => 'Y' | 'z' => 'Z' | c0 => c0

/-- JS String.prototype.toUpperCase (ASCII fragment). -/
def jsToUpper (s : String) : String :=
  ⟨s.data.map upChar⟩

/-- Trim of a character list: whitespace removed from both ends. -/
def trimList (l : List Char) : List Char :=
  ((l.dropWhile isWsChar).reverse.dropWhile isWsChar).reverse

/-- JS String.prototype.trim (ASCII fragment). -/
def jsTrim (s : String) : String :=
  ⟨trimList s.data⟩

/-- A JS number that may be an infinity or NaN; finite values are exact
rationals.  Only division can leave the finite fragment here. -/
inductive JsNum where
  | num (q : ℚ)
  | inf
  | negInf
  | nan
deriving DecidableEq

/-- JS division of two finite numbers: division by zero yields a signed
infinity, 0/0 yields NaN. -/
def jsDiv (a b : ℚ) : JsNum :=
  if b = 0 then
    if a = 0 then JsNum.nan else if 0 < a then JsNum.inf else JsNum.negInf
  else JsNum.num (a / b)

/-! ## Data model -/

/-- Payload of a successful remote registerSnapTradeUser call. -/
structure RegisterData where
  userId : String
  userSecret : String
deriving DecidableEq

/-- Payload of a successful remote loginSnapTradeUser call. -/
structure LoginData where
  redirectURI : Option String
deriving DecidableEq

/-- Value returned by the embedded registerSnapTradeUser. -/
structure RegisterResult where
  userId : String
  userSecret : String
deriving DecidableEq

/-- An error value thrown by the remote SDK or by the code itself.
The source inspects error.status / error.response.status (merged here into
status), error.response.data.detail / error.responseBody.detail (merged into
detail), and error.message. -/
structure JsError where
  status : Option Nat := none
  detail : Option String := none
  message : String := ""
deriving DecidableEq

/-- position.symbol: an object with optional symbol and description plus the
raw value used as JS fallback when those are falsy. -/
structure PositionSymbol where
  symbol : Option String := none
  description : Option String := none
  raw : String := ""
deriving DecidableEq

/-- A remote position.  Numeric fields are parseFloat inputs: absent or a
numeric string, modelled as Option Rat. -/
structure Position where
  symbol : PositionSymbol := {}
  quantity : Option ℚ := none
  price : Option ℚ := none
  bookValue : Option ℚ := none
  currency : Option String := none
deriving DecidableEq

/-- A remote account. -/
structure Account where
  id : String
  name : Option String := none
  brokerageName : Option String := none
  brokerageAuthId : Option String := none
deriving DecidableEq

/-- A remote balance entry. -/
structure Balance where
  cash : Bool := false
  amount : Option ℚ := none
  currency : Option String := none
deriving DecidableEq

/-- The normalized holding produced by fetchSnapTradeHoldings, one field per
property written by the source. -/
structure Holding where
  symbol : String
  name : String
  quantity : ℚ
  pricePerShare : ℚ
  totalValue : ℚ
  gainLoss : ℚ
  purchasePrice : JsNum
  accountId : String
  accountName : String
  brokerName : String
  currency : String
  isPending : Bool := false
  isError : Bool := false
  errorMessage : Option String := none
deriving DecidableEq

/-- The free-form broker_data JSON column: every key the source ever writes,
absent keys as none.  Timestamp values are naturals (ms since epoch). -/
structure BrokerData where
  registration_started_at : Option Nat := none
  registered_at : Option Nat := none
  snap_trade_user_id : Option String := none
  original_user_id : Option String := none
  registration_method : Option String := none
  is_fake_secret : Option Bool := none
  registration_failed_at : Option Nat := none
  error_message : Option String := none
  original_error : Option String := none
  connection_started : Option Nat := none
  broker_id : Option String := none
  disconnected_at : Option Nat := none
  authorization_id : Option String := none
deriving DecidableEq

/-- The broker_connections row for (userId, "snaptrade"). -/
structure Row where
  api_key : String := "snaptrade_user"
  api_secret_encrypted : String := ""
  is_active : Bool := false
  broker_data : BrokerData := {}
deriving DecidableEq

/-- Mutable state visible to the embedded functions: the stored row plus
instrumentation counters (loginCalls also indexes the scripted login
responses; remoteRegisterCalls counts remote register-user calls, so an
unchanged counter certifies that no remote registration happened). -/
structure World where
  row : Option Row := none
  loginCalls : Nat := 0
  remoteRegisterCalls : Nat := 0
deriving DecidableEq

/-- Scripted environment: the clock, whether the SDK initialized, whether the
broker_connections read errors, and the response of each remote endpoint. -/
structure Env where
  sdkInitialized : Bool := true
  dbReadError : Bool := false
  now : Nat := 0
  registerResp : String → Except JsError (Option RegisterData) := fun _ => .error {}
  loginResp : Nat → Option String → Except JsError (Option LoginData) := fun _ _ => .error {}
  accountsResp : Except JsError (Option (List Account)) := .error {}
  positionsResp : String → Except JsError (Option (List Position)) := fun _ => .error {}
  balancesResp : String → Except JsError (Option (List Balance)) := fun _ => .error {}
  deleteUserResp : String → Except JsError Unit := fun _ => .error {}

/-! ## registerSnapTradeUser (route.ts lines 236-407) -/

/-- The conflict test of lines 307-316: status 400 and a detail mentioning
the already-exists text (the two JS locations of each field are merged in
JsError). -/
def isConflictError (e : JsError) : Bool :=
  (e.status == some 400) &&
    (match e.detail with
     | some d => jsIncludes d "User with the following userId already exist"
     | none => false)

/-- The read of lines 244-250: the active row, if its secret is truthy. -/
def activeStoredSecret (env : Env) (w : World) : Option String :=
  if env.dbReadError then none
  else
    match w.row with
    | some r =>
        if r.is_active = true ∧ r.api_secret_encrypted ≠ "" then
          some r.api_secret_encrypted
        else none
    | none => none

/-- The read of lines 320-331: any stored secret that is truthy and not the
placeholder. -/
def storedNonPlaceholder (row : Option Row) : Option String :=
  match row with
  | some r =>
      if r.api_secret_encrypted ≠ "" ∧ r.api_secret_encrypted ≠ "pending_registration" then
        some r.api_secret_encrypted
      else none
  | none => none

/-- Database update of lines 286-297 and its later twins: set the secret column and
replace the broker_data column wholesale; a missing row makes the filtered
update a no-op. -/
def updateSecretData (w : World) (secret : String) (bd : BrokerData) : World :=
  match w.row with
  | some r => { w with row := some { r with api_secret_encrypted := secret, broker_data := bd } }
  | none => w

/-- Last-resort branch of lines 368-385: synthesize a fake secret, persist it
with the is_fake_secret marker, and return it. -/
def conflictFake (env : Env) (uid : String) (w : World) :
    Except JsError RegisterResult × World :=
  let fake := "fake_secret_" ++ toString env.now
  let w1 := updateSecretData w fake
    { registered_at := some env.now, snap_trade_user_id := some uid,
      registration_method := some "fallback", is_fake_secret := some true }
  (.ok { userId := uid, userSecret := fake }, w1)

/-- Modified-id branch of lines 336-366: register userId plus a timestamp
suffix, store the secret under the original id with provenance metadata, and
return the original id; any failure falls through to the fake secret. -/
def conflictModified (env : Env) (uid : String) (w : World) :
    Except JsError RegisterResult × World :=
  let modifiedId := uid ++ "_" ++ toString env.now
  let w1 := { w with remoteRegisterCalls := w.remoteRegisterCalls + 1 }
  match env.registerResp modifiedId with
  | .ok (some d) =>
      if d.userSecret ≠ "" then
        let w2 := updateSecretData w1 d.userSecret
          { registered_at := some env.now, snap_trade_user_id := some modifiedId,
            original_user_id := some uid, registration_method := some "modified_id" }
        (.ok { userId := uid, userSecret := d.userSecret }, w2)
      else conflictFake env uid w1
  | .ok none => conflictFake env uid w1
  | .error _ => conflictFake env uid w1

/-- Conflict branch of lines 317-386: reuse a stored non-placeholder secret,
else try a modified id, else fake. -/
def conflictFallback (env : Env) (uid : String) (w : World) :
    Except JsError RegisterResult × World :=
  let data2 := if env.dbReadError then none else w.row
  match storedNonPlaceholder data2 with
  | some s => (.ok { userId := uid, userSecret := s }, w)
  | none => conflictModified env uid w

/-- Catch block of lines 305-401: conflicts recover through the fallback
chain, any other error marks the row inactive with the message and is
rethrown. -/
def handleRegisterError (env : Env) (uid : String) (e : JsError) (w : World) :
    Except JsError RegisterResult × World :=
  if isConflictError e then conflictFallback env uid w
  else
    let bd : BrokerData :=
      { registration_failed_at := some env.now,
        error_message := some (jsOrS e.message "Unknown error") }
    let w1 :=
      match w.row with
      | some r => { w with row := some { r with is_active := false, broker_data := bd } }
      | none => w
    (.error e, w1)

/-- Lines 261-402: upsert the placeholder row, call the remote register
endpoint, persist a success, hand any failure to the error handler. -/
def registerAfterCheck (env : Env) (uid : String) (w : World) :
    Except JsError RegisterResult × World :=
  let placeholderRow : Row :=
    { api_key := "snaptrade_user", api_secret_encrypted := "pending_registration",
      is_active := true, broker_data := { registration_started_at := some env.now } }
  let w1 : World := { w with row := some placeholderRow }
  let w2 := { w1 with remoteRegisterCalls := w1.remoteRegisterCalls + 1 }
  match env.registerResp uid with
  | .ok (some d) =>
      if d.userSecret ≠ "" then
        let w3 := updateSecretData w2 d.userSecret
          { registered_at := some env.now, snap_trade_user_id := some d.userId,
            registration_method := some "direct" }
        (.ok { userId := d.userId, userSecret := d.userSecret }, w3)
      else
        handleRegisterError env uid
          { message := "Failed to register user with SnapTrade - no data returned" } w2
  | .ok none =>
      handleRegisterError env uid
        { message := "Failed to register user with SnapTrade - no data returned" } w2
  | .error e => handleRegisterError env uid e w2

/-- registerSnapTradeUser, lines 236-407. -/
def registerSnapTradeUser (env : Env) (uid : String) (w : World) :
    Except JsError RegisterResult × World :=
  if env.sdkInitialized = false then
    (.error { message := "SnapTrade SDK not initialized" }, w)
  else
    match activeStoredSecret env w with
    | some s => (.ok { userId := uid, userSecret := s }, w)
    | none => registerAfterCheck env uid w

/-! ## getUserSecret (lines 434-530) -/

/-- The validity condition of lines 450-455 and 498-503: a row that is
active with a truthy, non-placeholder secret. -/
def validStored (row : Option Row) : Option Row :=
  match row with
  | some r =>
      if r.is_active = true ∧ r.api_secret_encrypted ≠ "" ∧
          r.api_secret_encrypted ≠ "pending_registration" then some r
      else none
  | none => none

/-- Age check of lines 467-478: more than 7 whole elapsed days since
registered_at, a missing registered_at counting as needing refresh.
Math.floor of the real-number quotient is Int.fdiv. -/
def needsRefresh (now : Nat) (bd : BrokerData) : Bool :=
  match bd.registered_at with
  | some reg => decide (7 < Int.fdiv ((now : Int) - (reg : Int)) 86400000)
  | none => true

/-- Lines 487-529: register, and on failure fall back to the stale stored
secret read earlier, else upsert and return an emergency fake secret. -/
def getUserSecretRegister (env : Env) (uid : String) (dataRead : Option Row) (w : World) :
    Except JsError String × World :=
  match registerSnapTradeUser env uid w with
  | (.ok res, w1) => (.ok res.userSecret, w1)
  | (.error regErr, w1) =>
      match validStored dataRead with
      | some r => (.ok r.api_secret_encrypted, w1)
      | none =>
          let fake := "emergency_fallback_" ++ toString env.now
          let newRow : Row :=
            { api_key := "snaptrade_user", api_secret_encrypted := fake, is_active := true,
              broker_data := { registered_at := some env.now,
                               registration_method := some "emergency_fallback",
                               is_fake_secret := some true,
                               original_error := some (jsOrS regErr.message "Unknown error") } }
          (.ok fake, { w1 with row := some newRow })

/-- getUserSecret, lines 434-530.  A failing broker_connections read throws;
otherwise a valid stored secret is reused subject to the fake-secret and
age rules, and everything else funnels into the registration tail. -/
def getUserSecret (env : Env) (uid : String) (forceReregister : Bool) (w : World) :
    Except JsError String × World :=
  if env.dbReadError then
    (.error { message := "Database error when retrieving user secret" }, w)
  else
    let dataRead := w.row
    match validStored dataRead with
    | some r =>
        if r.broker_data.is_fake_secret = some true then
          if forceReregister = false then (.ok r.api_secret_encrypted, w)
          else getUserSecretRegister env uid dataRead w
        else
          if needsRefresh env.now r.broker_data = false ∧ forceReregister = false then
            (.ok r.api_secret_encrypted, w)
          else getUserSecretRegister env uid dataRead w
    | none => getUserSecretRegister env uid dataRead w

/-! ## fetchSnapTradeHoldings (lines 875-1037) -/

/-- Position-to-holding conversion of lines 918-940.  parseFloat(x or "0")
is the optional rational with default 0; the purchase price is the JS
division bookValue / quantity, with no guard on quantity = 0. -/
def positionToHolding (acc : Account) (p : Position) : Holding :=
  let quantity := p.quantity.getD 0
  let price := p.price.getD 0
  let bookValue := p.bookValue.getD 0
  let totalValue := quantity * price
  { symbol := jsOr p.symbol.symbol p.symbol.raw,
    name := jsOr p.symbol.description (jsOr p.symbol.symbol p.symbol.raw),
    quantity := quantity,
    pricePerShare := price,
    totalValue := totalValue,
    gainLoss := totalValue - bookValue,
    purchasePrice := jsDiv bookValue quantity,
    accountId := acc.id,
    accountName := jsOr acc.name "Investment Account",
    brokerName := jsOr acc.brokerageName "SnapTrade",
    currency := jsOr p.currency "USD" }

/-- Cash-balance conversion of lines 956-971: only balances flagged cash
with a positive parsed amount become a synthetic CASH holding. -/
def balanceToHolding (acc : Account) (b : Balance) : Option Holding :=
  match b.amount with
  | some a =>
      if b.cash = true ∧ 0 < a then
        some { symbol := "CASH",
               name := "Cash (" ++ b.currency.getD "undefined" ++ ")",
               quantity := 1,
               pricePerShare := a,
               totalValue := a,
               gainLoss := 0,
               purchasePrice := JsNum.num a,
               accountId := acc.id,
               accountName := jsOr acc.name "Investment Account",
               brokerName := jsOr acc.brokerageName "SnapTrade",
               currency := jsOr b.currency "USD" }
      else none
  | none => none

/-- Placeholder holding of lines 991-1004 for an account whose initial sync
has not completed (HTTP 425). -/
def pendingHolding (acc : Account) : Holding :=
  { symbol := "PENDING",
    name := jsOr acc.name "Account" ++ " (Syncing...)",
    quantity := 0, pricePerShare := 0, totalValue := 0, gainLoss := 0,
    purchasePrice := JsNum.num 0,
    accountId := acc.id,
    accountName := jsOr acc.name "Investment Account",
    brokerName := jsOr acc.brokerageName "SnapTrade",
    currency := "USD",
    isPending := true }

/-- Sentinel holding of lines 1019-1035, returned alone on a top-level
failure. -/
def errorHolding (msg : String) : Holding :=
  { symbol := "ERROR", name := "Error fetching holdings",
    quantity := 0, pricePerShare := 0, totalValue := 0, gainLoss := 0,
    purchasePrice := JsNum.num 0,
    accountId := "error", accountName := "Error", brokerName := "SnapTrade",
    currency := "USD", isError := true, errorMessage := some msg }

/-- The 425 test of lines 983-985: merged status defaulting to 0, or a
message mentioning 425. -/
def isTooEarly (e : JsError) : Bool :=
  (e.status.getD 0 == 425) || jsIncludes e.message "425"

/-- Per-account body of the loop at lines 906-1013.  A positions failure is
caught for that account alone: a 425 yields the pending placeholder, any
other failure yields nothing; a balances failure is likewise swallowed. -/
def processAccount (env : Env) (acc : Account) : List Holding :=
  match env.positionsResp acc.id with
  | .error e => if isTooEarly e then [pendingHolding acc] else []
  | .ok posOpt =>
      let posH :=
        match posOpt with
        | some ps => ps.map (positionToHolding acc)
        | none => []
      let balH :=
        match env.balancesResp acc.id with
        | .ok (some bs) => bs.filterMap (balanceToHolding acc)
        | .ok none => []
        | .error _ => []
      posH ++ balH

/-- Account filter of lines 901-903. -/
def accountsToProcess (accountId : Option String) (accs : List Account) : List Account :=
  match accountId with
  | some aid => accs.filter (fun a => a.id == aid)
  | none => accs

/-- fetchSnapTradeHoldings, lines 875-1037.  The SDK check at line 879 sits
before the try block and therefore throws; everything else is caught and
converted to the single sentinel error holding. -/
def fetchSnapTradeHoldings (env : Env) (uid : String) (accountId : Option String)
    (w : World) : Except JsError (List Holding) × World :=
  if env.sdkInitialized = false then
    (.error { message := "SnapTrade SDK not initialized" }, w)
  else
    match getUserSecret env uid false w with
    | (.error e, w1) => (.ok [errorHolding e.message], w1)
    | (.ok _, w1) =>
        match env.accountsResp with
        | .error e => (.ok [errorHolding e.message], w1)
        | .ok none => (.ok [errorHolding "Failed to fetch accounts"], w1)
        | .ok (some accs) =>
            (.ok ((accountsToProcess accountId accs).map (processAccount env)).flatten, w1)

/-! ## createSnapTradeUserLink (lines 660-838) -/

/-- The special-broker test of lines 688-692. -/
def specialBroker (s : String) : Bool :=
  s == "INTERACTIVE_BROKERS" || s == "IBKR" || s == "SCHWAB"

/-- Lines 680-711: the snapTradeBrokerId variable after validation — the
uppercased id, null for the specially handled brokers, or the original
value when the input was falsy or blank. -/
def snapTradeBrokerIdOf (brokerId : Option String) : Option String :=
  match brokerId with
  | none => none
  | some b =>
      if b ≠ "" ∧ jsTrim b ≠ "" then
        if specialBroker (jsToUpper b) then none else some (jsToUpper b)
      else some b

/-- The spread condition of lines 719-725: the broker field passed to the
remote login call, or none when omitted. -/
def brokerParam (brokerId : Option String) : Option String :=
  match snapTradeBrokerIdOf brokerId with
  | some s =>
      if s ≠ "" ∧ jsTrim s ≠ "" ∧ s ≠ "IBKR" ∧ s ≠ "INTERACTIVE_BROKERS" ∧ s ≠ "SCHWAB" then
        some s
      else none
  | none => none

/-- Line 757: snapTradeBrokerId or "any", written to broker_data. -/
def brokerDbId (brokerId : Option String) : String :=
  match snapTradeBrokerIdOf brokerId with
  | some s => if s = "" then "any" else s
  | none => "any"

/-- Detail extraction of lines 829-834 (the JSON.stringify branch collapses
into the detail field of the modelled error). -/
def linkErrorDetails (e : JsError) : String :=
  match e.detail with
  | some d => if d ≠ "" then d else jsOrS e.message "Unknown error"
  | none => jsOrS e.message "Unknown error"

/-- The outer catch of lines 825-837: every error crossing it is rewrapped
with the Failed-to-link prefix. -/
def linkOuterWrap (e : JsError) : JsError :=
  { message := "Failed to link account: " ++ linkErrorDetails e }

/-- The inner catch of lines 764-824.  Only the exact message comparison at
line 766 selects the retry path; recurse is the recursive call of lines 772
and 810 (one fuel unit smaller).  All other errors are rethrown into the
outer catch and rewrapped. -/
def linkCatch (env : Env) (recurse : World → Except JsError String × World)
    (uid : String) (e : JsError) (w : World) : Except JsError String × World :=
  if e.message = "User not registered with SnapTrade" then
    match registerSnapTradeUser env uid w with
    | (.ok _, w1) => recurse w1
    | (.error regErr, w1) =>
        let failMsg : JsError :=
          { message := "Failed to register user: " ++ jsOrS regErr.message "Unknown error" }
        if regErr.status == some 400 then
          match env.deleteUserResp uid with
          | .ok _ =>
              let w2 := { w1 with remoteRegisterCalls := w1.remoteRegisterCalls + 1 }
              match env.registerResp uid with
              | .ok (some d) =>
                  if d.userSecret ≠ "" then
                    let recreatedRow : Row :=
                      { api_key := "snaptrade_user", api_secret_encrypted := d.userSecret,
                        is_active := true,
                        broker_data := { registered_at := some env.now,
                                         snap_trade_user_id := some d.userId } }
                    recurse { w2 with row := some recreatedRow }
                  else (.error (linkOuterWrap failMsg), w2)
              | .ok none => (.error (linkOuterWrap failMsg), w2)
              | .error _ => (.error (linkOuterWrap failMsg), w2)
          | .error _ => (.error (linkOuterWrap failMsg), w1)
        else (.error (linkOuterWrap failMsg), w1)
  else (.error (linkOuterWrap e), w)

/-- createSnapTradeUserLink, lines 660-838, with explicit recursion fuel:
each (re-)entry consumes one unit, so the claim that the function retries at
most once is the claim that two units always suffice. -/
def createSnapTradeUserLink (env : Env) (fuel : Nat) (uid redirectUri : String)
    (brokerId : Option String) (w : World) : Except JsError String × World :=
  match fuel with
  | 0 => (.error { message := "model: recursion fuel exhausted" }, w)
  | Nat.succ fuel =>
      if env.sdkInitialized = false then
        (.error { message := "SnapTrade SDK not initialized" }, w)
      else
        match getUserSecret env uid false w with
        | (.error e, w1) =>
            linkCatch env (createSnapTradeUserLink env fuel uid redirectUri brokerId)
              uid e w1
        | (.ok _secret, w1) =>
            let idx := w1.loginCalls
            let w2 := { w1 with loginCalls := idx + 1 }
            match env.loginResp idx (brokerParam brokerId) with
            | .error e =>
                linkCatch env (createSnapTradeUserLink env fuel uid redirectUri brokerId)
                  uid e w2
            | .ok none =>
                linkCatch env (createSnapTradeUserLink env fuel uid redirectUri brokerId)
                  uid { message := "Failed to generate connection portal URL - no data returned" } w2
            | .ok (some d) =>
                match d.redirectURI with
                | none =>
                    linkCatch env (createSnapTradeUserLink env fuel uid redirectUri brokerId)
                      uid { message := "Failed to generate connection portal URL - no redirect URI" } w2
                | some uri =>
                    if uri = "" then
                      linkCatch env (createSnapTradeUserLink env fuel uid redirectUri brokerId)
                        uid { message := "Failed to generate connection portal URL - no redirect URI" } w2
                    else
                      let bd : BrokerData :=
                        { connection_started := some env.now,
                          broker_id := some (brokerDbId brokerId) }
                      let w3 :=
                        match w2.row with
                        | some r => { w2 with row := some { r with broker_data := bd } }
                        | none => w2
                      (.ok uri, w3)

/-! ## deleteSnapTradeConnection (lines 537-652) -/

/-- deleteSnapTradeConnection, lines 537-652.  The remote authorization
removal and account deletion are attempted with every failure swallowed and
no local effect, so they do not appear in the state; the final update merges
the existing broker_data (spread) and deactivates the row. -/
def deleteSnapTradeConnection (env : Env) (uid authorizationId : String) (w : World) :
    Except JsError Bool × World :=
  if env.sdkInitialized = false then
    (.error { message := "SnapTrade SDK not initialized" }, w)
  else
    match getUserSecret env uid false w with
    | (.error e, w1) => (.error e, w1)
    | (.ok _, w1) =>
        match env.accountsResp with
        | .error e => (.error e, w1)
        | .ok none => (.error { message := "Failed to fetch accounts" }, w1)
        | .ok (some accounts) =>
            match accounts.find? (fun a => a.brokerageAuthId == some authorizationId) with
            | none => (.ok true, w1)
            | some _account =>
                let existingBD : BrokerData :=
                  if env.dbReadError then {}
                  else
                    match w1.row with
                    | some r => r.broker_data
                    | none => {}
                let bd : BrokerData :=
                  { existingBD with disconnected_at := some env.now,
                                    authorization_id := some authorizationId }
                match w1.row with
                | some r =>
                    (.ok true, { w1 with row := some { r with is_active := false, broker_data := bd } })
                | none => (.ok true, w1)

/-! ## Shared lemmas: totality and non-emptiness of the credential flow -/

/-- A string with a non-empty left part stays non-empty under append. -/
theorem append_left_ne_empty (s t : String) (h : 0 < s.length) : s ++ t ≠ "" := by
  intro he
  have hl := congrArg String.length he
  rw [String.length_append] at hl
  have h0 : String.length "" = 0 := rfl
  omega

/-- Inversion for the active-row read: a returned secret is truthy. -/
theorem activeStoredSecret_ne_empty (env : Env) (w : World) (s : String)
    (h : activeStoredSecret env w = some s) : s ≠ "" := by
  unfold activeStoredSecret at h
  split at h
  · exact absurd h (by simp)
  · split at h
    · split at h
      · rename_i r hcond
        cases h
        exact hcond.2
      · exact absurd h (by simp)
    · exact absurd h (by simp)

/-- Inversion for the non-placeholder read of the conflict branch. -/
theorem storedNonPlaceholder_ne_empty (row : Option Row) (s : String)
    (h : storedNonPlaceholder row = some s) : s ≠ "" := by
  unfold storedNonPlaceholder at h
  split at h
  · split at h
    · rename_i r hcond
      cases h
      exact hcond.1
    · exact absurd h (by simp)
  · exact absurd h (by simp)

/-- Inversion for the validity condition of getUserSecret. -/
theorem validStored_spec (row : Option Row) (r : Row) (h : validStored row = some r) :
    row = some r ∧ r.is_active = true ∧ r.api_secret_encrypted ≠ "" ∧
      r.api_secret_encrypted ≠ "pending_registration" := by
  unfold validStored at h
  split at h
  · split at h
    · rename_i r0 hcond
      cases h
      exact ⟨rfl, hcond⟩
    · exact absurd h (by simp)
  · exact absurd h (by simp)

/-- The last-resort fake secret is returned successfully and is non-empty. -/
theorem conflictFake_ok (env : Env) (uid : String) (w : World) :
    (conflictFake env uid w).1 =
      .ok { userId := uid, userSecret := "fake_secret_" ++ toString env.now } :=
  rfl

/-- Whatever the modified-id registration does, the conflict branch returns
a non-empty secret for the original user id. -/
theorem conflictModified_ok (env : Env) (uid : String) (w : World) :
    ∃ s, (conflictModified env uid w).1 = .ok { userId := uid, userSecret := s } ∧
      s ≠ "" := by
  have hfk : ("fake_secret_" ++ toString env.now : String) ≠ "" :=
    append_left_ne_empty _ _ (by decide)
  cases hresp : env.registerResp (uid ++ "_" ++ toString env.now) with
  | ok od =>
      cases od with
      | some d =>
          by_cases hd : d.userSecret = ""
          · refine ⟨"fake_secret_" ++ toString env.now, ?_, hfk⟩
            simp [conflictModified, hresp, hd, conflictFake]
          · refine ⟨d.userSecret, ?_, hd⟩
            simp [conflictModified, hresp, hd]
      | none =>
          refine ⟨"fake_secret_" ++ toString env.now, ?_, hfk⟩
          simp [conflictModified, hresp, conflictFake]
  | error e =>
      refine ⟨"fake_secret_" ++ toString env.now, ?_, hfk⟩
      simp [conflictModified, hresp, conflictFake]

/-- The whole conflict fallback chain terminates with a non-empty secret
for the original user id. -/
theorem conflictFallback_ok (env : Env) (uid : String) (w : World) :
    ∃ s, (conflictFallback env uid w).1 = .ok { userId := uid, userSecret := s } ∧
      s ≠ "" := by
  cases hs : storedNonPlaceholder (if env.dbReadError then none else w.row) with
  | some s =>
      refine ⟨s, ?_, storedNonPlaceholder_ne_empty _ _ hs⟩
      simp [conflictFallback, hs]
  | none =>
      obtain ⟨s, h1, h2⟩ := conflictModified_ok env uid w
      refine ⟨s, ?_, h2⟩
      have heq : conflictFallback env uid w = conflictModified env uid w := by
        simp [conflictFallback, hs]
      rw [heq]
      exact h1

/-- The error handler either recovers through the conflict chain with a
non-empty secret or faithfully rethrows. -/
theorem handleRegisterError_ok_ne_empty (env : Env) (uid : String) (e : JsError)
    (w w1 : World) (res : RegisterResult)
    (h : handleRegisterError env uid e w = (.ok res, w1)) : res.userSecret ≠ "" := by
  unfold handleRegisterError at h
  split at h
  · obtain ⟨s, h1, hne⟩ := conflictFallback_ok env uid w
    have h2 : (conflictFallback env uid w).1 = .ok res := by rw [h]
    rw [h1] at h2
    cases h2
    exact hne
  · simp at h

/-- Any successful return of registerSnapTradeUser carries a non-empty
secret. -/
theorem registerSnapTradeUser_ok_ne_empty (env : Env) (uid : String) (w w1 : World)
    (res : RegisterResult)
    (h : registerSnapTradeUser env uid w = (.ok res, w1)) : res.userSecret ≠ "" := by
  unfold registerSnapTradeUser at h
  split at h
  · exact absurd h (by simp)
  · revert h
    split
    · rename_i s hs
      intro h
      cases h
      exact activeStoredSecret_ne_empty env w _ hs
    · intro h
      unfold registerAfterCheck at h
      revert h
      split
      · rename_i d hresp
        by_cases hd : d.userSecret ≠ ""
        · simp only [if_pos hd]
          intro h
          cases h
          exact hd
        · simp only [if_neg hd]
          exact fun h => handleRegisterError_ok_ne_empty env uid _ _ _ _ h
      · exact fun h => handleRegisterError_ok_ne_empty env uid _ _ _ _ h
      · exact fun h => handleRegisterError_ok_ne_empty env uid _ _ _ _ h

/-- The registration tail of getUserSecret always succeeds with a non-empty
secret: a successful registration, the stale stored secret, or the
emergency fallback. -/
theorem getUserSecretRegister_ok (env : Env) (uid : String) (dataRead : Option Row)
    (w : World) :
    ∃ s w1, getUserSecretRegister env uid dataRead w = (.ok s, w1) ∧ s ≠ "" := by
  unfold getUserSecretRegister
  rcases hreg : registerSnapTradeUser env uid w with ⟨resE, wr⟩
  cases resE with
  | ok res =>
      exact ⟨res.userSecret, wr, rfl, registerSnapTradeUser_ok_ne_empty env uid w wr res hreg⟩
  | error regErr =>
      cases hv : validStored dataRead with
      | some r =>
          simp only [hv]
          exact ⟨r.api_secret_encrypted, wr, rfl, (validStored_spec dataRead r hv).2.2.1⟩
      | none =>
          simp only [hv]
          exact ⟨_, _, rfl, append_left_ne_empty _ _ (by decide)⟩

/-- Whenever the broker_connections read succeeds, getUserSecret returns a
non-empty secret and never throws. -/
theorem getUserSecret_ok (env : Env) (uid : String) (force : Bool) (w : World)
    (h : env.dbReadError = false) :
    ∃ s w1, getUserSecret env uid force w = (.ok s, w1) ∧ s ≠ "" := by
  unfold getUserSecret
  rw [h]
  simp only [Bool.false_eq_true, if_false]
  cases hv : validStored w.row with
  | some r =>
      have hspec := validStored_spec w.row r hv
      by_cases hfake : r.broker_data.is_fake_secret = some true
      · simp only [if_pos hfake]
        by_cases hf : force = false
        · simp only [if_pos hf]
          exact ⟨r.api_secret_encrypted, w, rfl, hspec.2.2.1⟩
        · simp only [if_neg hf]
          exact getUserSecretRegister_ok env uid w.row w
      · simp only [if_neg hfake]
        by_cases hr : needsRefresh env.now r.broker_data = false ∧ force = false
        · simp only [if_pos hr]
          exact ⟨r.api_secret_encrypted, w, rfl, hspec.2.2.1⟩
        · simp only [if_neg hr]
          exact getUserSecretRegister_ok env uid w.row w
  | none =>
      exact getUserSecretRegister_ok env uid w.row w

/-! ## Counter lemmas: remote-register call instrumentation -/

/-- The update helper touches only the stored row, never the counters. -/
theorem updateSecretData_counters (w : World) (s : String) (bd : BrokerData) :
    (updateSecretData w s bd).remoteRegisterCalls = w.remoteRegisterCalls := by
  unfold updateSecretData
  cases w.row <;> rfl

/-- The fake-secret branch performs no remote call of its own. -/
theorem conflictFake_counters (env : Env) (uid : String) (w : World) :
    (conflictFake env uid w).2.remoteRegisterCalls = w.remoteRegisterCalls :=
  updateSecretData_counters w _ _

/-- The modified-id branch performs exactly one remote register call. -/
theorem conflictModified_counters (env : Env) (uid : String) (w : World) :
    (conflictModified env uid w).2.remoteRegisterCalls = w.remoteRegisterCalls + 1 := by
  cases hresp : env.registerResp (uid ++ "_" ++ toString env.now) with
  | ok od =>
      cases od with
      | some d =>
          by_cases hd : d.userSecret = ""
          · simp [conflictModified, hresp, hd, conflictFake, updateSecretData_counters]
          · simp [conflictModified, hresp, hd, updateSecretData_counters]
      | none => simp [conflictModified, hresp, conflictFake, updateSecretData_counters]
  | error e => simp [conflictModified, hresp, conflictFake, updateSecretData_counters]

/-- The conflict chain never undoes a remote call. -/
theorem conflictFallback_counters (env : Env) (uid : String) (w : World) :
    w.remoteRegisterCalls ≤ (conflictFallback env uid w).2.remoteRegisterCalls := by
  cases hs : storedNonPlaceholder (if env.dbReadError then none else w.row) with
  | some s => simp [conflictFallback, hs]
  | none =>
      have heq : conflictFallback env uid w = conflictModified env uid w := by
        simp [conflictFallback, hs]
      rw [heq, conflictModified_counters]
      omega

/-- The error handler never undoes a remote call. -/
theorem handleRegisterError_counters (env : Env) (uid : String) (e : JsError) (w : World) :
    w.remoteRegisterCalls ≤ (handleRegisterError env uid e w).2.remoteRegisterCalls := by
  unfold handleRegisterError
  split
  · exact conflictFallback_counters env uid w
  · cases hrow : w.row <;> simp [hrow]

/-- Once past the short-circuit check, at least one remote register call
always happens. -/
theorem registerAfterCheck_counter (env : Env) (uid : String) (w : World) :
    w.remoteRegisterCalls < (registerAfterCheck env uid w).2.remoteRegisterCalls := by
  cases hresp : env.registerResp uid with
  | ok od =>
      cases od with
      | some d =>
          by_cases hd : d.userSecret = ""
          · simp [registerAfterCheck, hresp, hd]
            refine lt_of_lt_of_le ?_ (handleRegisterError_counters env uid _ _)
            simp
          · simp only [registerAfterCheck, hresp]
            simp [hd, updateSecretData_counters]
      | none =>
          simp only [registerAfterCheck, hresp]
          refine lt_of_lt_of_le ?_ (handleRegisterError_counters env uid _ _)
          simp
  | error e =>
      simp only [registerAfterCheck, hresp]
      refine lt_of_lt_of_le ?_ (handleRegisterError_counters env uid _ _)
      simp

/-! ## Claim C1 -/

/-- Claim C1, amended: for every userId and forceRefresh flag, whenever the
credential-store read succeeds, getUserSecret never throws and returns some
non-empty string — a real secret, an existing stored secret, or a
synthesized fallback secret.  (As stated the claim also covers a failing
credential-store read, where the code in fact throws; see the
counterexample.) -/
theorem getUserSecret_never_throws_nonempty (env : Env) (uid : String) (force : Bool)
    (w : World) (h : env.dbReadError = false) :
    ∃ s w1, getUserSecret env uid force w = (.ok s, w1) ∧ s ≠ "" :=
  getUserSecret_ok env uid force w h

/-- Claim C1 witness: concrete run with an empty store and a failing remote
registration still yields a non-empty secret. -/
theorem getUserSecret_never_throws_nonempty_witness :
    ({} : Env).dbReadError = false ∧
      ∃ s w1, getUserSecret {} "u1" false {} = (.ok s, w1) ∧ s ≠ "" :=
  ⟨rfl, getUserSecret_never_throws_nonempty {} "u1" false {} rfl⟩

/-- Claim C1 counterexample: when the credential-store read itself fails,
getUserSecret throws a database error instead of returning a fallback
secret, contradicting the claim's "including when the credential-store read
itself fails". -/
theorem getUserSecret_throws_on_store_error :
    (getUserSecret { dbReadError := true } "u1" false {}).1 =
      .error { message := "Database error when retrieving user secret" } :=
  rfl

/-! ## Claim C4 -/

/-- Claim C4, amended: registerSnapTradeUser short-circuits with the stored
secret, without any remote register call (the world, including the remote
call counter, is unchanged), whenever the stored connection is active and
its secret is non-empty — including the placeholder value; it proceeds to
the registration flow (which always performs a remote register call) only
when the active read yields no truthy secret. -/
theorem registerUser_short_circuit_policy (env : Env) (uid : String) (w : World)
    (hsdk : env.sdkInitialized = true) :
    (∀ s, activeStoredSecret env w = some s →
        registerSnapTradeUser env uid w = (.ok { userId := uid, userSecret := s }, w)) ∧
    (activeStoredSecret env w = none →
        registerSnapTradeUser env uid w = registerAfterCheck env uid w ∧
        w.remoteRegisterCalls < (registerSnapTradeUser env uid w).2.remoteRegisterCalls) := by
  constructor
  · intro s hs
    simp [registerSnapTradeUser, hsdk, hs]
  · intro hs
    have heq : registerSnapTradeUser env uid w = registerAfterCheck env uid w := by
      simp [registerSnapTradeUser, hsdk, hs]
    refine ⟨heq, ?_⟩
    rw [heq]
    exact registerAfterCheck_counter env uid w

/-- Row holding an active placeholder secret. -/
def wPlaceholder : World :=
  { row := some { api_key := "snaptrade_user",
                  api_secret_encrypted := "pending_registration",
                  is_active := true, broker_data := {} } }

/-- Claim C4 witness: with an active stored secret the function returns it
and leaves the world (and its remote-call counter) untouched. -/
theorem registerUser_short_circuit_policy_witness :
    registerSnapTradeUser {} "u1" { row := some { api_secret_encrypted := "secA", is_active := true } } =
      (.ok { userId := "u1", userSecret := "secA" },
        { row := some { api_secret_encrypted := "secA", is_active := true } }) :=
  (registerUser_short_circuit_policy {} "u1"
      { row := some { api_secret_encrypted := "secA", is_active := true } } rfl).1 "secA" rfl

/-- Claim C4 counterexample: with an active stored placeholder secret,
registerSnapTradeUser returns the placeholder "pending_registration" and
performs no remote registration (unchanged world and counter), contradicting
the claim that a placeholder secret makes it proceed to remote
registration. -/
theorem registerUser_placeholder_short_circuit :
    registerSnapTradeUser {} "u1" wPlaceholder =
      (.ok { userId := "u1", userSecret := "pending_registration" }, wPlaceholder) :=
  rfl

/-! ## Claim C5 -/

/-- Claim C5: for a stored active connection with a non-placeholder secret,
getUserSecret returns the stored secret unchanged (and leaves the world
unchanged) except that a fallback (is_fake_secret) secret enters the
re-registration flow only under forceRefresh, and a real secret enters it
exactly when forceRefresh is set or the stored age is over the 7-day
threshold (the code counts whole elapsed days, Math.floor of the
millisecond difference over one day, and refreshes when that count
exceeds 7; a missing registered_at also refreshes). -/
theorem getUserSecret_reuse_policy (env : Env) (uid : String) (force : Bool)
    (w : World) (r : Row) (hdb : env.dbReadError = false) (hrow : w.row = some r)
    (hact : r.is_active = true) (hne : r.api_secret_encrypted ≠ "")
    (hnp : r.api_secret_encrypted ≠ "pending_registration") :
    ((r.broker_data.is_fake_secret = some true ∧ force = false) →
        getUserSecret env uid force w = (.ok r.api_secret_encrypted, w)) ∧
    ((r.broker_data.is_fake_secret = some true ∧ force = true) →
        getUserSecret env uid force w = getUserSecretRegister env uid w.row w) ∧
    ((r.broker_data.is_fake_secret ≠ some true ∧ force = false ∧
        needsRefresh env.now r.broker_data = false) →
        getUserSecret env uid force w = (.ok r.api_secret_encrypted, w)) ∧
    ((r.broker_data.is_fake_secret ≠ some true ∧
        (force = true ∨ needsRefresh env.now r.broker_data = true)) →
        getUserSecret env uid force w = getUserSecretRegister env uid w.row w) := by
  have hvs : validStored w.row = some r := by
    simp [validStored, hrow, hact, hne, hnp]
  refine ⟨?_, ?_, ?_, ?_⟩
  · intro hc
    simp [getUserSecret, hdb, hvs, hc.1, hc.2]
  · intro hc
    simp [getUserSecret, hdb, hvs, hc.1, hc.2]
  · intro hc
    simp [getUserSecret, hdb, hvs, hc.1, hc.2.1, hc.2.2]
  · rintro ⟨hnf, hf | hr⟩
    · simp [getUserSecret, hdb, hvs, hnf, hf]
    · simp [getUserSecret, hdb, hvs, hnf, hr]

/-- Row with an active fallback (fake) secret. -/
def rFake : Row :=
  { api_secret_encrypted := "fs1", is_active := true,
    broker_data := { is_fake_secret := some true } }

/-- Row with an active real secret registered at the model epoch. -/
def rReal : Row :=
  { api_secret_encrypted := "rs1", is_active := true,
    broker_data := { registered_at := some 0 } }

/-- Claim C5 witness: a stored fake secret is returned as-is when no refresh
is forced (first clause), and a fresh real secret likewise (third clause). -/
theorem getUserSecret_reuse_policy_witness :
    getUserSecret {} "u1" false { row := some rFake } = (.ok "fs1", { row := some rFake }) ∧
    getUserSecret {} "u1" false { row := some rReal } = (.ok "rs1", { row := some rReal }) :=
  ⟨(getUserSecret_reuse_policy {} "u1" false { row := some rFake } rFake rfl rfl rfl
      (by decide) (by decide)).1 ⟨rfl, rfl⟩,
   (getUserSecret_reuse_policy {} "u1" false { row := some rReal } rReal rfl rfl rfl
      (by decide) (by decide)).2.2.1 ⟨by decide, rfl, by decide⟩⟩

/-! ## Claim C2 -/

/-- The placeholder row written by lines 263-276 at time env.now. -/
def placeholderRowOf (env : Env) : Row :=
  { api_key := "snaptrade_user", api_secret_encrypted := "pending_registration",
    is_active := true, broker_data := { registration_started_at := some env.now } }

/-- The world right after the placeholder upsert and the first remote
register call. -/
def placeholderWorld (env : Env) (w : World) : World :=
  { w with row := some (placeholderRowOf env),
           remoteRegisterCalls := w.remoteRegisterCalls + 1 }

/-- The row stored by the modified-id fallback (lines 346-362): the new
secret under the original user id, with provenance metadata. -/
def modifiedRow (env : Env) (uid : String) (d : RegisterData) : Row :=
  { api_key := "snaptrade_user", api_secret_encrypted := d.userSecret, is_active := true,
    broker_data := { registered_at := some env.now,
                     snap_trade_user_id := some (uid ++ "_" ++ toString env.now),
                     original_user_id := some uid,
                     registration_method := some "modified_id" } }

/-- The row stored by the fake-secret fallback (lines 368-385). -/
def fallbackRow (env : Env) (uid : String) : Row :=
  { api_key := "snaptrade_user",
    api_secret_encrypted := "fake_secret_" ++ toString env.now, is_active := true,
    broker_data := { registered_at := some env.now, snap_trade_user_id := some uid,
                     registration_method := some "fallback", is_fake_secret := some true } }

/-- Claim C2: when the remote register call reports an already-exists
conflict, registerSnapTradeUser always succeeds with a non-empty secret for
the original userId in bounded steps, through the ordered chain of
conflictFallback (store-reuse check, executed against the placeholder just
upserted, then modified-id registration, then synthesized fake secret):
a successful modified-id registration (original id plus timestamp suffix)
stores its secret under the original user id with original_user_id and
registration_method "modified_id" metadata; otherwise the fake secret is
persisted with the is_fake_secret marker. -/
theorem registerUser_conflict_chain (env : Env) (uid : String) (w : World)
    (e : JsError) (hsdk : env.sdkInitialized = true) (hdb : env.dbReadError = false)
    (hact : activeStoredSecret env w = none)
    (hresp : env.registerResp uid = .error e) (hconf : isConflictError e = true) :
    (∃ s w1, registerSnapTradeUser env uid w = (.ok { userId := uid, userSecret := s }, w1) ∧
        s ≠ "") ∧
    (∀ d, env.registerResp (uid ++ "_" ++ toString env.now) = .ok (some d) →
        d.userSecret ≠ "" →
        ∃ w1, registerSnapTradeUser env uid w =
            (.ok { userId := uid, userSecret := d.userSecret }, w1) ∧
          w1.row = some (modifiedRow env uid d)) ∧
    ((∀ d, env.registerResp (uid ++ "_" ++ toString env.now) = .ok (some d) →
        d.userSecret = "") →
        ∃ w1, registerSnapTradeUser env uid w =
            (.ok { userId := uid, userSecret := "fake_secret_" ++ toString env.now }, w1) ∧
          w1.row = some (fallbackRow env uid)) := by
  have hstep : registerSnapTradeUser env uid w =
      conflictModified env uid (placeholderWorld env w) := by
    simp [registerSnapTradeUser, hsdk, hact, registerAfterCheck, hresp,
          handleRegisterError, hconf, conflictFallback, hdb, storedNonPlaceholder,
          placeholderWorld, placeholderRowOf]
  refine ⟨?_, ?_, ?_⟩
  · obtain ⟨s, h1, h2⟩ := conflictModified_ok env uid (placeholderWorld env w)
    refine ⟨s, (conflictModified env uid (placeholderWorld env w)).2, ?_, h2⟩
    rw [hstep]
    exact Prod.ext h1 rfl
  · intro d hm hdne
    have hcm : conflictModified env uid (placeholderWorld env w) =
        (.ok { userId := uid, userSecret := d.userSecret },
         { row := some (modifiedRow env uid d), loginCalls := w.loginCalls,
           remoteRegisterCalls := w.remoteRegisterCalls + 1 + 1 }) := by
      simp [conflictModified, hm, hdne, updateSecretData, placeholderWorld,
            placeholderRowOf, modifiedRow]
    refine ⟨{ row := some (modifiedRow env uid d), loginCalls := w.loginCalls,
              remoteRegisterCalls := w.remoteRegisterCalls + 1 + 1 }, ?_, rfl⟩
    rw [hstep, hcm]
  · intro hfail
    have hcm : conflictModified env uid (placeholderWorld env w) =
        (.ok { userId := uid, userSecret := "fake_secret_" ++ toString env.now },
         { row := some (fallbackRow env uid), loginCalls := w.loginCalls,
           remoteRegisterCalls := w.remoteRegisterCalls + 1 + 1 }) := by
      cases hm : env.registerResp (uid ++ "_" ++ toString env.now) with
      | ok od =>
          cases od with
          | some d =>
              have hde := hfail d hm
              simp [conflictModified, hm, hde, conflictFake, updateSecretData,
                    placeholderWorld, placeholderRowOf, fallbackRow]
          | none =>
              simp [conflictModified, hm, conflictFake, updateSecretData,
                    placeholderWorld, placeholderRowOf, fallbackRow]
      | error er =>
          simp [conflictModified, hm, conflictFake, updateSecretData,
                placeholderWorld, placeholderRowOf, fallbackRow]
    refine ⟨{ row := some (fallbackRow env uid), loginCalls := w.loginCalls,
              remoteRegisterCalls := w.remoteRegisterCalls + 1 + 1 }, ?_, rfl⟩
    rw [hstep, hcm]

/-- The already-exists error returned by the scripted remote register. -/
def conflictErr : JsError :=
  { status := some 400,
    detail := some "User with the following userId already exist: u1" }

/-- Environment where registering u1 conflicts and the modified id
succeeds. -/
def envConflict : Env :=
  { registerResp := fun uidArg =>
      if uidArg = "u1" then .error conflictErr
      else .ok (some { userId := uidArg, userSecret := "sNew" }) }

/-- Claim C2 witness: the spec scenario — remote register for u1 conflicts,
no usable local secret exists, the modified-id registration succeeds, and
the stored metadata records original_user_id u1. -/
theorem registerUser_conflict_chain_witness :
    ∃ w1, registerSnapTradeUser envConflict "u1" {} =
        (.ok { userId := "u1", userSecret := "sNew" }, w1) ∧
      w1.row = some (modifiedRow envConflict "u1" { userId := "u1_0", userSecret := "sNew" }) :=
  (registerUser_conflict_chain envConflict "u1" {} conflictErr rfl rfl rfl rfl (by rfl)).2.1
    { userId := "u1_0", userSecret := "sNew" } (by rfl) (by decide)

/-! ## Claim C3 -/

/-- A bare account for concrete holding computations. -/
def acc0 : Account := { id := "a1" }

/-- Position with quantity 0 and positive book value, as parsed from
quantity "0", price "10", bookValue "1000". -/
def posZeroQty : Position :=
  { quantity := some 0, price := some 10, bookValue := some 1000 }

/-- Position with quantity 0 and book value 0. -/
def posZeroQtyZeroBook : Position :=
  { quantity := some 0, price := some 0, bookValue := some 0 }

/-- Claim C3 (code bug): each converted Holding satisfies totalValue =
quantity times price, gainLoss = totalValue minus bookValue, and
purchasePrice = bookValue / quantity whenever quantity is non-zero; but
the division by zero at quantity = 0 is NOT handled by any policy: the
code produces an unhandled Infinity (positive book value) or NaN (zero
book value) in the returned purchasePrice. -/
theorem fetchHoldings_formulas_divzero_unhandled :
    (∀ acc p, (positionToHolding acc p).totalValue = p.quantity.getD 0 * p.price.getD 0 ∧
        (positionToHolding acc p).gainLoss =
          (positionToHolding acc p).totalValue - p.bookValue.getD 0 ∧
        (p.quantity.getD 0 ≠ 0 →
          (positionToHolding acc p).purchasePrice =
            JsNum.num (p.bookValue.getD 0 / p.quantity.getD 0))) ∧
    (positionToHolding acc0 posZeroQty).purchasePrice = JsNum.inf ∧
    (positionToHolding acc0 posZeroQtyZeroBook).purchasePrice = JsNum.nan := by
  refine ⟨fun acc p => ⟨rfl, rfl, fun hq => ?_⟩, ?_, ?_⟩
  · simp [positionToHolding, jsDiv, hq]
  · decide
  · decide

/-- Position with quantity 2, price 3, book value 5. -/
def posTwo : Position :=
  { quantity := some 2, price := some 3, bookValue := some 5 }

/-- Claim C3 witness: the purchase-price formula at a concrete non-zero
quantity. -/
theorem fetchHoldings_formulas_witness :
    (positionToHolding acc0 posTwo).purchasePrice = JsNum.num (5 / 2) :=
  (fetchHoldings_formulas_divzero_unhandled.1 acc0 posTwo).2.2 (by decide)

/-! ## Claim C6 -/

/-- Claim C6, amended: whenever the SDK is initialized, fetchSnapTradeHoldings
always returns a list and never throws, and a top-level failure (a failing
credential-store read inside getUserSecret, or a failing account listing)
yields a list containing exactly one sentinel error Holding carrying the
error message.  (As stated the claim is refuted by the uninitialized-SDK
check, which sits before the guarded region and throws; see the
counterexample.) -/
theorem fetchHoldings_total_sentinel (env : Env) (uid : String) (aid : Option String)
    (w : World) (hsdk : env.sdkInitialized = true) :
    ∃ hs w1, fetchSnapTradeHoldings env uid aid w = (.ok hs, w1) ∧
      (env.dbReadError = true →
        hs = [errorHolding "Database error when retrieving user secret"]) ∧
      (∀ e, env.dbReadError = false → env.accountsResp = .error e →
        hs = [errorHolding e.message]) := by
  by_cases hdb : env.dbReadError = true
  · refine ⟨[errorHolding "Database error when retrieving user secret"], w, ?_, fun _ => rfl, ?_⟩
    · simp [fetchSnapTradeHoldings, hsdk, getUserSecret, hdb]
    · intro e hf _
      simp [hdb] at hf
  · have hdb0 : env.dbReadError = false := by simpa using hdb
    obtain ⟨s, w1, hgs, _⟩ := getUserSecret_ok env uid false w hdb0
    cases hacc : env.accountsResp with
    | error e =>
        refine ⟨[errorHolding e.message], w1, ?_, ?_, ?_⟩
        · simp [fetchSnapTradeHoldings, hsdk, hgs, hacc]
        · intro hf
          simp [hdb0] at hf
        · intro e2 _ hacc2
          cases hacc2
          rfl
    | ok oaccs =>
        cases oaccs with
        | none =>
            refine ⟨[errorHolding "Failed to fetch accounts"], w1, ?_, ?_, ?_⟩
            · simp [fetchSnapTradeHoldings, hsdk, hgs, hacc]
            · intro hf
              simp [hdb0] at hf
            · intro e2 _ hacc2
              simp at hacc2
        | some accs =>
            refine ⟨((accountsToProcess aid accs).map (processAccount env)).flatten, w1,
              ?_, ?_, ?_⟩
            · simp [fetchSnapTradeHoldings, hsdk, hgs, hacc]
            · intro hf
              simp [hdb0] at hf
            · intro e2 _ hacc2
              simp at hacc2

/-- Claim C6 witness: a concrete top-level failure (failing store read)
yields the single sentinel error holding. -/
theorem fetchHoldings_total_sentinel_witness :
    ∃ hs w1, fetchSnapTradeHoldings { dbReadError := true } "u1" none {} = (.ok hs, w1) ∧
      hs = [errorHolding "Database error when retrieving user secret"] := by
  obtain ⟨hs, w1, h1, h2, _⟩ :=
    fetchHoldings_total_sentinel { dbReadError := true } "u1" none {} rfl
  exact ⟨hs, w1, h1, h2 rfl⟩

/-- Claim C6 counterexample: with the SDK uninitialized (missing
credentials), fetchSnapTradeHoldings throws the fail-fast error instead of
returning a list, refuting "always returns a list and never throws". -/
theorem fetchHoldings_throws_uninitialized :
    (fetchSnapTradeHoldings { sdkInitialized := false } "u1" none {}).1 =
      .error { message := "SnapTrade SDK not initialized" } :=
  rfl

/-! ## Claim C7 -/

/-- Claim C7: per-account isolation.  The result list is the concatenation,
account by account, of each account's own conversion — so one account's
positions or balances failure cannot abort the others — and an account whose
positions call fails with the too-early (425) condition contributes exactly
one pending placeholder Holding. -/
theorem fetchHoldings_per_account_isolated (env : Env) (uid : String) (w : World)
    (accs : List Account) (hsdk : env.sdkInitialized = true)
    (hdb : env.dbReadError = false) (hacc : env.accountsResp = .ok (some accs)) :
    (∃ w1, fetchSnapTradeHoldings env uid none w =
        (.ok (accs.map (processAccount env)).flatten, w1)) ∧
    (∀ a e, env.positionsResp a.id = .error e → isTooEarly e = true →
        processAccount env a = [pendingHolding a]) := by
  constructor
  · obtain ⟨s, w1, hgs, _⟩ := getUserSecret_ok env uid false w hdb
    exact ⟨w1, by simp [fetchSnapTradeHoldings, hsdk, hgs, hacc, accountsToProcess]⟩
  · intro a e hp h425
    simp [processAccount, hp, h425]

/-- First scenario account: its positions call fails with 425. -/
def accA : Account := { id := "a1", name := some "Alpha" }

/-- Second scenario account: real positions. -/
def accB : Account := { id := "a2", name := some "Beta" }

/-- The one position of the second account. -/
def posB : Position :=
  { symbol := { symbol := some "AAPL", raw := "AAPL" },
    quantity := some 2, price := some 5, bookValue := some 6 }

/-- Environment of the spec scenario: two accounts, the first accounts
sync not finished (HTTP 425), the second with one real position. -/
def env425 : Env :=
  { accountsResp := .ok (some [accA, accB]),
    positionsResp := fun aid =>
      if aid = "a1" then .error { status := some 425 } else .ok (some [posB]),
    balancesResp := fun _ => .ok (some []) }

/-- Claim C7 witness: in the scenario the result is the per-account
concatenation, the 425 account contributes exactly the pending placeholder,
and the other account its real holding. -/
theorem fetchHoldings_per_account_isolated_witness :
    (∃ w1, fetchSnapTradeHoldings env425 "u2" none {} =
        (.ok ([accA, accB].map (processAccount env425)).flatten, w1)) ∧
    processAccount env425 accA = [pendingHolding accA] ∧
    processAccount env425 accB = [positionToHolding accB posB] :=
  ⟨(fetchHoldings_per_account_isolated env425 "u2" {} [accA, accB] rfl rfl rfl).1,
   (fetchHoldings_per_account_isolated env425 "u2" {} [accA, accB] rfl rfl rfl).2
     accA { status := some 425 } (by rfl) (by rfl),
   by rfl⟩

/-! ## Claim C8 -/

/-- The error message that selects the retry path at line 766. -/
def notRegErr : JsError := { message := "User not registered with SnapTrade" }

/-- An active, fresh, real stored secret: getUserSecret reuses it without
writing, and registerSnapTradeUser short-circuits on it. -/
def rowFresh : Row :=
  { api_secret_encrypted := "sec1", is_active := true,
    broker_data := { registered_at := some 0 } }

/-- Environment whose remote login fails twice with the not-registered
message and then succeeds. -/
def envTwo : Env :=
  { loginResp := fun n _ =>
      if n < 2 then .error notRegErr
      else .ok (some { redirectURI := some "https://portal.example" }) }

/-- Environment whose remote login always fails with the not-registered
message. -/
def envLoop : Env :=
  { loginResp := fun _ _ => .error notRegErr }

/-- Claim C8 counterexample: if createSnapTradeUserLink retried at most once
(a single level of recursion), two units of fuel — the initial entry plus
one retry — would always suffice; but in an environment where the login
failure recurs once more, fuel 2 is exhausted while fuel 3 succeeds, so the
call re-entered itself twice. -/
theorem createLink_two_reentries :
    (createSnapTradeUserLink envTwo 2 "u1" "https://cb" none { row := some rowFresh }).1 =
        .error { message := "model: recursion fuel exhausted" } ∧
    (createSnapTradeUserLink envTwo 3 "u1" "https://cb" none { row := some rowFresh }).1 =
        .ok "https://portal.example" :=
  ⟨rfl, rfl⟩

/-- Claim C8, amended: on a login failure with the not-registered message,
createSnapTradeUserLink invokes registration and re-invokes itself with no
depth guard, so the re-entry is unbounded: while the failure persists, every
recursion budget is exhausted — each step consumes one fuel unit and
re-enters with one fewer. -/
theorem createLink_unbounded_reentry (fuel k : Nat) :
    (createSnapTradeUserLink envLoop fuel "u1" "https://cb" none
        { row := some rowFresh, loginCalls := k }).1 =
      .error { message := "model: recursion fuel exhausted" } := by
  induction fuel generalizing k with
  | zero => rfl
  | succ n ih =>
      have hstep : createSnapTradeUserLink envLoop (n + 1) "u1" "https://cb" none
          { row := some rowFresh, loginCalls := k } =
          createSnapTradeUserLink envLoop n "u1" "https://cb" none
            { row := some rowFresh, loginCalls := k + 1 } := rfl
      rw [hstep]
      exact ih (k + 1)

/-! ## Claim C9 -/

/-- Uppercasing a character does not change whether it is whitespace. -/
theorem isWsChar_upChar (c : Char) : isWsChar (upChar c) = isWsChar c := by
  unfold upChar
  split <;> rfl

/-- dropWhile by whitespace commutes with uppercasing. -/
theorem dropWhile_map_upChar (m : List Char) :
    (m.map upChar).dropWhile isWsChar = (m.dropWhile isWsChar).map upChar := by
  induction m with
  | nil => rfl
  | cons a t ih =>
      by_cases h : isWsChar a
      · simp [List.dropWhile_cons, isWsChar_upChar, h, ih]
      · simp [List.dropWhile_cons, isWsChar_upChar, h]

/-- Trimming commutes with uppercasing. -/
theorem trimList_map_upChar (l : List Char) :
    trimList (l.map upChar) = (trimList l).map upChar := by
  unfold trimList
  rw [dropWhile_map_upChar, ← List.map_reverse, dropWhile_map_upChar, ← List.map_reverse]

/-- jsTrim of jsToUpper is jsToUpper of jsTrim. -/
theorem jsTrim_jsToUpper (s : String) : jsTrim (jsToUpper s) = jsToUpper (jsTrim s) := by
  cases s with
  | mk data =>
      show String.mk (trimList (data.map upChar)) = String.mk ((trimList data).map upChar)
      rw [trimList_map_upChar]

/-- jsToUpper preserves emptiness. -/
theorem jsToUpper_eq_empty_iff (s : String) : jsToUpper s = "" ↔ s = "" := by
  cases s with
  | mk data =>
      cases data with
      | nil => exact ⟨fun _ => rfl, fun _ => rfl⟩
      | cons a t =>
          constructor
          · intro h
            exact absurd (congrArg String.data h) (by simp [jsToUpper])
          · intro h
            exact absurd (congrArg String.data h) (by simp)

/-- Claim C9: for every brokerId that is non-blank after trimming, the id is
normalized to uppercase, and the login call omits the broker parameter
entirely exactly for the specially handled brokers (INTERACTIVE_BROKERS,
IBKR, SCHWAB); every other broker is passed as the uppercased id. -/
theorem createLink_broker_normalization (b : String) (h : jsTrim b ≠ "") :
    (specialBroker (jsToUpper b) = true → brokerParam (some b) = none) ∧
    (specialBroker (jsToUpper b) = false → brokerParam (some b) = some (jsToUpper b)) := by
  have hb : b ≠ "" := by
    intro he
    apply h
    rw [he]
    rfl
  constructor
  · intro hs
    simp [brokerParam, snapTradeBrokerIdOf, hb, h, hs]
  · intro hs
    have h1 : jsToUpper b ≠ "" := by
      rw [Ne, jsToUpper_eq_empty_iff]
      exact hb
    have h2 : jsTrim (jsToUpper b) ≠ "" := by
      rw [jsTrim_jsToUpper, Ne, jsToUpper_eq_empty_iff]
      exact h
    have h3 : jsToUpper b ≠ "IBKR" := by
      intro he
      rw [he] at hs
      exact absurd hs (by decide)
    have h4 : jsToUpper b ≠ "INTERACTIVE_BROKERS" := by
      intro he
      rw [he] at hs
      exact absurd hs (by decide)
    have h5 : jsToUpper b ≠ "SCHWAB" := by
      intro he
      rw [he] at hs
      exact absurd hs (by decide)
    simp [brokerParam, snapTradeBrokerIdOf, hb, h, hs, h1, h2, h3, h4, h5]

/-- Claim C9 witness: a regular broker id is uppercased and passed; a
specially handled broker id is omitted. -/
theorem createLink_broker_normalization_witness :
    brokerParam (some "Fidelity") = some "FIDELITY" ∧
    brokerParam (some "schwab") = none :=
  ⟨(createLink_broker_normalization "Fidelity" (by decide)).2 (by rfl),
   (createLink_broker_normalization "schwab" (by decide)).1 (by rfl)⟩

/-! ## Claim C10 -/

/-- The broker_data object written by lines 752-761 after a successful
login-link generation: only connection_started and broker_id, every other
field absent. -/
def linkBrokerData (env : Env) (brokerId : Option String) : BrokerData :=
  { connection_started := some env.now, broker_id := some (brokerDbId brokerId) }

/-- The broker_data object written by deleteSnapTradeConnection (lines
613-624): the existing fields spread, plus disconnected_at and
authorization_id. -/
def disconnectBrokerData (env : Env) (bd : BrokerData) (authId : String) : BrokerData :=
  { bd with disconnected_at := some env.now, authorization_id := some authId }

/-- Claim C10: after a successful login-link generation the connection row's
broker_data is replaced by an object holding only connection_started and
broker_id — every previously stored metadata field is dropped — while the
row's secret, api_key and active flag are untouched (the returned world
keeps r except for broker_data).  By contrast, the update performed by
deleteSnapTradeConnection spreads the existing broker_data, preserving all
previous fields while adding its own. -/
theorem createLink_overwrites_broker_data (env : Env) (fuel : Nat)
    (uid redirectUri : String) (brokerId : Option String) (w : World) (r : Row)
    (d : LoginData) (uri : String) (accounts : List Account) (authId : String)
    (acct : Account)
    (hsdk : env.sdkInitialized = true) (hdb : env.dbReadError = false)
    (hrow : w.row = some r) (hact : r.is_active = true)
    (hne : r.api_secret_encrypted ≠ "")
    (hnp : r.api_secret_encrypted ≠ "pending_registration")
    (hfake : r.broker_data.is_fake_secret = some true)
    (hlogin : env.loginResp w.loginCalls (brokerParam brokerId) = .ok (some d))
    (huri : d.redirectURI = some uri) (hu : uri ≠ "")
    (haccs : env.accountsResp = .ok (some accounts))
    (hfind : accounts.find? (fun a => a.brokerageAuthId == some authId) = some acct) :
    createSnapTradeUserLink env (fuel + 1) uid redirectUri brokerId w =
      (.ok uri,
        { w with loginCalls := w.loginCalls + 1,
                 row := some { r with broker_data := linkBrokerData env brokerId } }) ∧
    (deleteSnapTradeConnection env uid authId w).2.row =
      some { r with is_active := false,
                    broker_data := disconnectBrokerData env r.broker_data authId } := by
  have hvs : validStored w.row = some r := by
    simp [validStored, hrow, hact, hne, hnp]
  have hgs : getUserSecret env uid false w = (.ok r.api_secret_encrypted, w) := by
    simp [getUserSecret, hdb, hvs, hfake]
  constructor
  · simp [createSnapTradeUserLink, hsdk, hgs, hlogin, huri, hu, hrow, linkBrokerData]
  · simp [deleteSnapTradeConnection, hsdk, hgs, haccs, hfind, hdb, hrow,
          disconnectBrokerData]

/-- Environment for the C10 witness: login succeeds immediately, and the
account listing holds one account matching the authorization id. -/
def envLink : Env :=
  { loginResp := fun _ _ => .ok (some { redirectURI := some "https://portal2" }),
    accountsResp := .ok (some [{ id := "a9", brokerageAuthId := some "auth1" }]) }

/-- Claim C10 witness: concrete run over a row with existing metadata — the
link update drops it all, the disconnect update keeps it. -/
theorem createLink_overwrites_broker_data_witness :
    createSnapTradeUserLink envLink 1 "u1" "https://cb" (some "questrade") { row := some rFake } =
      (.ok "https://portal2",
        { row := some { rFake with broker_data := linkBrokerData envLink (some "questrade") },
          loginCalls := 1 }) ∧
    (deleteSnapTradeConnection envLink "u1" "auth1" { row := some rFake }).2.row =
      some { rFake with is_active := false,
                        broker_data := disconnectBrokerData envLink rFake.broker_data "auth1" } :=
  createLink_overwrites_broker_data envLink 0 "u1" "https://cb" (some "questrade")
    { row := some rFake } rFake { redirectURI := some "https://portal2" } "https://portal2"
    [{ id := "a9", brokerageAuthId := some "auth1" }] "auth1"
    { id := "a9", brokerageAuthId := some "auth1" }
    rfl rfl rfl rfl (by decide) (by decide) rfl rfl rfl (by decide) rfl rfl
